import Mathlib

/-!
Shallow embedding of the quiz progression core of src/app/page.tsx
(quiz data model, the flattened question list, the session state and the
event handlers together with the render conditions that gate them).
JavaScript string truthiness (the empty string is falsy) is modelled
explicitly, and the stable Array.prototype.sort with the comparator
(a, b) => a.number - b.number is modelled by List.mergeSort on the
non-strict order of the number field.
-/

unseal List.merge List.mergeSort

namespace FinalStudy

/-- JavaScript truthiness of a string: the empty string is falsy. -/
def strTruthy (s : String) : Bool := s != ""

/-- JavaScript truthiness of a nullable string (string or null). -/
def optTruthy : Option String → Bool
  | none => false
  | some s => strTruthy s

/-- Question shape (page.tsx lines 8-15); the choice map and the
why_incorrect map are association lists keyed by choice key. -/
structure Question where
  number : Int
  question : String
  choices : List (String × String)
  correct_answer : String
  why_correct : String
  why_incorrect : List (String × String)
deriving DecidableEq

/-- Category shape (lines 17-20). -/
structure Category where
  category : String
  questions : List Question
deriving DecidableEq

/-- Quiz shape (lines 22-24). -/
structure Quiz where
  categories : List Category
deriving DecidableEq

/-- QuizBank (line 26): Record from quiz id to Quiz, as an association list. -/
abbrev QuizBank := List (String × Quiz)

/-- Bank lookup, quizBank[id]. -/
def lookupQuiz (bank : QuizBank) (id : String) : Option Quiz :=
  bank.lookup id

/-- EnrichedQuestion (line 28): a Question plus its category name. -/
structure EnrichedQuestion where
  number : Int
  question : String
  choices : List (String × String)
  correct_answer : String
  why_correct : String
  why_incorrect : List (String × String)
  category : String
deriving DecidableEq

/-- Annotate a question with its owning category name (lines 51-54). -/
def enrich (categoryName : String) (q : Question) : EnrichedQuestion :=
  ⟨q.number, q.question, q.choices, q.correct_answer, q.why_correct,
   q.why_incorrect, categoryName⟩

/-- Concatenation stage of the flatten operation (the flatMap of lines 49-55). -/
def annotatedConcat (quiz : Quiz) : List EnrichedQuestion :=
  quiz.categories.flatMap (fun c => c.questions.map (enrich c.category))

/-- The flatten operation (lines 49-56): concatenate all categories and sort
ascending by the number field. -/
def flattenQuiz (quiz : Quiz) : List EnrichedQuestion :=
  (annotatedConcat quiz).mergeSort (fun a b => a.number ≤ b.number)

/-- The questions useMemo (lines 45-57): derived question list of an
activeQuizId; null or empty-string id, or an id missing from the bank,
yield the empty list. -/
def questionsOf (bank : QuizBank) (activeQuizId : Option String) : List EnrichedQuestion :=
  match activeQuizId with
  | none => []
  | some id =>
    if strTruthy id then
      match lookupQuiz bank id with
      | none => []
      | some quiz => flattenQuiz quiz
    else []

/-- The five useState cells of the component (lines 37-43), in source order. -/
structure Session where
  activeQuizId : Option String
  questionIndex : Nat
  selectedChoice : Option String
  finished : Bool
  submitted : Bool
deriving DecidableEq

/-- Derived question list of a session. -/
def questionsFor (bank : QuizBank) (s : Session) : List EnrichedQuestion :=
  questionsOf bank s.activeQuizId

/-- currentQuestion = questions[questionIndex] (line 67). -/
def currentQuestion (bank : QuizBank) (s : Session) : Option EnrichedQuestion :=
  (questionsFor bank s)[s.questionIndex]?

/-- isCorrect (lines 68-71): submitted and a truthy selectedChoice and a
current question, and the selection equals the correct answer. -/
def isCorrect (bank : QuizBank) (s : Session) : Bool :=
  match currentQuestion bank s with
  | some q =>
    match s.selectedChoice with
    | some c => s.submitted && strTruthy c && c == q.correct_answer
    | none => false
  | none => false

/-- handleSelect (lines 80-83). -/
def handleSelect (s : Session) (choice : String) : Session :=
  { s with selectedChoice := some choice, submitted := false }

/-- handleSubmit (lines 85-88): bails out when selectedChoice is null or
the empty string (JavaScript truthiness). -/
def handleSubmit (s : Session) : Session :=
  if optTruthy s.selectedChoice then { s with submitted := true } else s

/-- handleNext (lines 90-98); the index comparison is signed arithmetic,
so an empty list gives length - 1 = -1. -/
def handleNext (bank : QuizBank) (s : Session) : Session :=
  if (s.questionIndex : Int) < ((questionsFor bank s).length : Int) - 1 then
    { s with questionIndex := s.questionIndex + 1, selectedChoice := none, submitted := false }
  else
    { s with finished := true }

/-- readyToSubmit (line 108). -/
def readyToSubmit (s : Session) : Bool := optTruthy s.selectedChoice

/-- noQuestionsLoaded (line 109). -/
def noQuestionsLoaded (bank : QuizBank) (s : Session) : Bool :=
  optTruthy s.activeQuizId && (questionsFor bank s).length == 0

/-- Render condition of the question block (lines 183-186): the choice
buttons, Submit and Next exist only under it. -/
def questionVisible (bank : QuizBank) (s : Session) : Bool :=
  !noQuestionsLoaded bank s && optTruthy s.activeQuizId &&
    (currentQuestion bank s).isSome && !s.finished

/-- selectChoice event: a choice button exists only inside the question
block (lines 208-249), so handleSelect fires only when it is rendered. -/
def selectOp (bank : QuizBank) (s : Session) (choice : String) : Session :=
  if questionVisible bank s then handleSelect s choice else s

/-- submit event: the Submit button renders only when not submitted inside
the question block and is disabled unless readyToSubmit (lines 277-290). -/
def submitOp (bank : QuizBank) (s : Session) : Session :=
  if questionVisible bank s && !s.submitted && readyToSubmit s then handleSubmit s else s

/-- advance event: the Next/Finish button renders only when submitted
inside the question block (lines 291-302). -/
def advanceOp (bank : QuizBank) (s : Session) : Session :=
  if questionVisible bank s && s.submitted then handleNext bank s else s

/-- replay event: the button renders only in the finished block (lines
307, 318-328); its onClick resets the index, the choice and the finished
flag, and nothing else. -/
def replayOp (s : Session) : Session :=
  if s.finished then
    { s with questionIndex := 0, selectedChoice := none, finished := false }
  else s

/-- selectQuiz event (line 128 plus the reset effect of lines 59-65): the
effect runs only when activeQuizId actually changes between renders, so
re-selecting the already active quiz changes nothing. -/
def selectQuizOp (s : Session) (quizId : String) : Session :=
  if s.activeQuizId = some quizId then s
  else ⟨some quizId, 0, none, false, false⟩

/-- exitQuiz event: the pick-another-quiz button of the finished block
(lines 329-335); setActiveQuizId(null) plus the reset effect. -/
def exitOp (s : Session) : Session :=
  if s.finished then
    if s.activeQuizId = none then s else ⟨none, 0, none, false, false⟩
  else s

/-- The user events driving the session. -/
inductive Op where
  | selectQuiz (quizId : String)
  | selectChoice (key : String)
  | submit
  | advance
  | replay
  | leave
deriving DecidableEq

/-- One step of the event loop. -/
def step (bank : QuizBank) (s : Session) : Op → Session
  | Op.selectQuiz q => selectQuizOp s q
  | Op.selectChoice k => selectOp bank s k
  | Op.submit => submitOp bank s
  | Op.advance => advanceOp bank s
  | Op.replay => replayOp s
  | Op.leave => exitOp s

/-- Run a sequence of events. -/
def runOps (bank : QuizBank) (s : Session) : List Op → Session
  | [] => s
  | o :: ops => runOps bank (step bank s o) ops

/-- The question list stays empty at every state along a run. -/
def emptyAlong (bank : QuizBank) (s : Session) : List Op → Bool
  | [] => true
  | o :: ops => (questionsFor bank s).isEmpty && emptyAlong bank (step bank s o) ops

/-! Concrete data used by witnesses and counterexamples. -/

/-- Sample question 1: number 1, correct answer A. -/
def q1 : Question :=
  ⟨1, "What is one plus zero?", [("A", "one"), ("B", "two")], "A",
   "one plus zero is one", [("B", "two is one more than one")]⟩

/-- Sample question 2: number 2, correct answer B. -/
def q2 : Question :=
  ⟨2, "What is one plus one?", [("A", "one"), ("B", "two")], "B",
   "one plus one is two", [("A", "one is one short")]⟩

/-- Sample quiz: question numbers appear as 2 then 1 in source order,
across two categories. -/
def quizW : Quiz := ⟨[⟨"arithmetic", [q2]⟩, ⟨"basics", [q1]⟩]⟩

/-- Sample bank holding quizW under quiz1. -/
def bankW : QuizBank := [("quiz1", quizW)]

/-- Question whose choice map contains the empty-string key. -/
def qE : Question :=
  ⟨1, "Pick any option", [("", "the blank option"), ("A", "the lettered option")], "A",
   "A is the intended answer", [("", "the blank option is not it")]⟩

/-- Quiz and bank exposing the empty-string choice key. -/
def quizE : Quiz := ⟨[⟨"edge", [qE]⟩]⟩

/-- Bank holding quizE under quizE. -/
def bankE : QuizBank := [("quizE", quizE)]

/-- Question whose correct answer is the empty-string key. -/
def qZ : Question :=
  ⟨1, "Pick the blank option", [("", "the blank option"), ("A", "the lettered option")], "",
   "the blank option is the intended answer", [("A", "the lettered option is not it")]⟩

/-- Quiz and bank whose sole question has the empty-string correct answer. -/
def quizZ : Quiz := ⟨[⟨"edge", [qZ]⟩]⟩

/-- Bank holding quizZ under quizZ. -/
def bankZ : QuizBank := [("quizZ", quizZ)]

/-! Helper lemmas. -/

/-- A current question exists exactly when the index is in bounds. -/
theorem currentQuestion_isSome_iff (bank : QuizBank) (s : Session) :
    (currentQuestion bank s).isSome = true ↔
      s.questionIndex < (questionsFor bank s).length := by
  unfold currentQuestion
  constructor
  · intro h
    rcases Option.isSome_iff_exists.mp h with ⟨q, hq⟩
    exact (List.getElem?_eq_some.mp hq).1
  · intro h
    rw [List.getElem?_eq_getElem h]
    rfl

/-- A nonempty derived question list forces a truthy active quiz id. -/
theorem questions_ne_nil_truthy (bank : QuizBank) (s : Session)
    (h : questionsFor bank s ≠ []) : optTruthy s.activeQuizId = true := by
  cases hid : s.activeQuizId with
  | none =>
    exfalso
    exact h (by simp [questionsFor, hid, questionsOf])
  | some id =>
    by_cases ht : strTruthy id = true
    · simpa [optTruthy] using ht
    · exfalso
      apply h
      simp only [questionsFor, hid, questionsOf]
      rw [if_neg ht]

/-- The question block renders exactly when the session is unfinished and
the index addresses a question. -/
theorem questionVisible_iff (bank : QuizBank) (s : Session) :
    questionVisible bank s = true ↔
      s.finished = false ∧ s.questionIndex < (questionsFor bank s).length := by
  constructor
  · intro h
    simp only [questionVisible, Bool.and_eq_true] at h
    refine ⟨?_, (currentQuestion_isSome_iff bank s).mp h.1.2⟩
    have hfin := h.2
    simpa using hfin
  · rintro ⟨hfin, hidx⟩
    have hlen : 0 < (questionsFor bank s).length := Nat.lt_of_le_of_lt (Nat.zero_le _) hidx
    have hne : questionsFor bank s ≠ [] := by
      intro hnil
      rw [hnil] at hlen
      simp at hlen
    have hid := questions_ne_nil_truthy bank s hne
    have hcur := (currentQuestion_isSome_iff bank s).mpr hidx
    have hz : ((questionsFor bank s).length == 0) = false := by
      rw [beq_eq_false_iff_ne]
      omega
    simp [questionVisible, noQuestionsLoaded, hid, hcur, hfin, hz]

/-- With an empty question list the question block never renders. -/
theorem questionVisible_eq_false_of_empty (bank : QuizBank) (s : Session)
    (h : questionsFor bank s = []) : questionVisible bank s = false := by
  simp [questionVisible, currentQuestion, h]

/-- C1: for every quiz present in the bank under a truthy id, the derived
question list is the flatten of that quiz, which is a permutation of the
concatenation of all questions of all categories annotated with their
category name, sorted ascending by the number field; an id absent from
the bank, a quiz with zero categories, and a quiz all of whose categories
have zero questions each yield the empty list. The flatten itself is a
plain function of the quiz, hence pure and deterministic. -/
theorem flatten_spec (bank : QuizBank) (id : String) :
    (∀ quiz, lookupQuiz bank id = some quiz → strTruthy id = true →
        questionsOf bank (some id) = flattenQuiz quiz
      ∧ (flattenQuiz quiz).Perm (annotatedConcat quiz)
      ∧ List.Sorted (fun a b : EnrichedQuestion => a.number ≤ b.number) (flattenQuiz quiz))
  ∧ (lookupQuiz bank id = none → questionsOf bank (some id) = [])
  ∧ (∀ quiz : Quiz, quiz.categories = [] → flattenQuiz quiz = [])
  ∧ (∀ quiz : Quiz, (∀ c ∈ quiz.categories, c.questions = []) → flattenQuiz quiz = []) := by
  refine ⟨?_, ?_, ?_, ?_⟩
  · intro quiz hq ht
    refine ⟨by simp [questionsOf, ht, hq], List.mergeSort_perm _ _, ?_⟩
    have h := @List.sorted_mergeSort EnrichedQuestion
      (fun a b : EnrichedQuestion => decide (a.number ≤ b.number))
      (fun a b c h1 h2 => by
        simp only [decide_eq_true_eq] at h1 h2 ⊢
        omega)
      (fun a b => by
        simp only [Bool.or_eq_true, decide_eq_true_eq]
        omega)
      (annotatedConcat quiz)
    unfold List.Sorted
    simpa [flattenQuiz] using h
  · intro h
    by_cases ht : strTruthy id = true
    · simp [questionsOf, ht, h]
    · simp only [questionsOf]
      rw [if_neg ht]
  · intro quiz h
    simp [flattenQuiz, annotatedConcat, h]
  · intro quiz h
    have hcat : annotatedConcat quiz = [] := by
      simp only [annotatedConcat, List.flatMap_eq_nil_iff]
      intro c hc
      simp [h c hc]
    simp [flattenQuiz, hcat]

/-- Witness for C1 at a concrete bank: quiz1 holds question numbers 2 then
1 in source order across two categories, and flattening yields them
annotated and sorted as [1, 2]. -/
theorem flatten_spec_witness :
    lookupQuiz bankW "quiz1" = some quizW
  ∧ strTruthy "quiz1" = true
  ∧ questionsOf bankW (some "quiz1") = flattenQuiz quizW
  ∧ flattenQuiz quizW = [enrich "basics" q1, enrich "arithmetic" q2]
  ∧ List.Sorted (fun a b : EnrichedQuestion => a.number ≤ b.number) (flattenQuiz quizW) := by
  have h := (flatten_spec bankW "quiz1").1 quizW (by decide) (by decide)
  exact ⟨by decide, by decide, h.1, by decide, h.2.2⟩

/-- C2 counterexample: re-selecting the quiz id that is already active
leaves the session untouched, because the reset effect is keyed on a
change of activeQuizId; here the position stays 1 instead of resetting
to 0, refuting the claim for a prior state with the same quiz id. -/
theorem selectQuiz_same_id_counterexample :
    (selectQuizOp ⟨some "quiz1", 1, some "A", false, true⟩ "quiz1").questionIndex = 1
  ∧ (selectQuizOp ⟨some "quiz1", 1, some "A", false, true⟩ "quiz1").submitted = true := by
  decide

/-- C2 (amended): for every prior session state and every quizId that
differs from the currently active one (including an id absent from the
bank), selectQuiz(quizId) yields position 0, no selected choice,
submitted and finished false, and the question list recomputed from the
new id. -/
theorem selectQuiz_resets (bank : QuizBank) (s : Session) (quizId : String)
    (h : s.activeQuizId ≠ some quizId) :
    selectQuizOp s quizId = ⟨some quizId, 0, none, false, false⟩
  ∧ questionsFor bank (selectQuizOp s quizId) = questionsOf bank (some quizId) := by
  have he : selectQuizOp s quizId = ⟨some quizId, 0, none, false, false⟩ := by
    unfold selectQuizOp
    rw [if_neg h]
  exact ⟨he, by rw [he]; rfl⟩

/-- Witness for C2 at a concrete input: switching from quiz2 to quiz1
resets the whole session. -/
theorem selectQuiz_resets_witness :
    (⟨some "quiz2", 1, some "A", true, true⟩ : Session).activeQuizId ≠ some "quiz1"
  ∧ selectQuizOp ⟨some "quiz2", 1, some "A", true, true⟩ "quiz1" =
      ⟨some "quiz1", 0, none, false, false⟩ :=
  ⟨by decide,
   (selectQuiz_resets bankW ⟨some "quiz2", 1, some "A", true, true⟩ "quiz1" (by decide)).1⟩

/-- C3: the advance event leaves the whole session unchanged unless
submitted is true, because the Next/Finish button only renders once the
current answer is submitted. -/
theorem advance_requires_submitted (bank : QuizBank) (s : Session)
    (h : s.submitted = false) : advanceOp bank s = s := by
  simp [advanceOp, h]

/-- Witness for C3 at a concrete unsubmitted session. -/
theorem advance_requires_submitted_witness :
    (⟨some "quiz1", 0, some "A", false, false⟩ : Session).submitted = false
  ∧ advanceOp bankW ⟨some "quiz1", 0, some "A", false, false⟩ =
      ⟨some "quiz1", 0, some "A", false, false⟩ :=
  ⟨rfl, advance_requires_submitted bankW ⟨some "quiz1", 0, some "A", false, false⟩ rfl⟩

/-- C4: when the question block is rendered and the answer is submitted
(so the advance event is valid and the list is nonempty), advancing from
a non-final position increments the position and clears the selection and
the submitted flag, while advancing from the last position only sets
finished, leaving the position unchanged. -/
theorem advance_spec (bank : QuizBank) (s : Session)
    (hvis : questionVisible bank s = true) (hsub : s.submitted = true) :
    (s.questionIndex + 1 < (questionsFor bank s).length →
      advanceOp bank s =
        { s with questionIndex := s.questionIndex + 1, selectedChoice := none, submitted := false })
  ∧ (s.questionIndex + 1 = (questionsFor bank s).length →
      advanceOp bank s = { s with finished := true }
      ∧ (advanceOp bank s).questionIndex = s.questionIndex) := by
  have hgate : advanceOp bank s = handleNext bank s := by
    simp [advanceOp, hvis, hsub]
  constructor
  · intro hlt
    rw [hgate]
    unfold handleNext
    rw [if_pos (by omega)]
  · intro heq
    have hge : ¬ ((s.questionIndex : Int) < ((questionsFor bank s).length : Int) - 1) := by
      omega
    rw [hgate]
    unfold handleNext
    rw [if_neg hge]
    exact ⟨rfl, rfl⟩

/-- Witness for C4 at a concrete session: from position 0 of the
two-question quiz1, advancing moves to position 1 and clears the
selection and the submitted flag. -/
theorem advance_spec_witness :
    questionVisible bankW ⟨some "quiz1", 0, some "A", false, true⟩ = true
  ∧ (⟨some "quiz1", 0, some "A", false, true⟩ : Session).submitted = true
  ∧ 0 + 1 < (questionsFor bankW ⟨some "quiz1", 0, some "A", false, true⟩).length
  ∧ advanceOp bankW ⟨some "quiz1", 0, some "A", false, true⟩ =
      ⟨some "quiz1", 1, none, false, false⟩ :=
  ⟨by decide, rfl, by decide,
   (advance_spec bankW ⟨some "quiz1", 0, some "A", false, true⟩ (by decide) rfl).1 (by decide)⟩

/-- Any single event applied at a state with an empty question list and
finished false yields a state with finished still false. -/
theorem step_keeps_unfinished (bank : QuizBank) (s : Session) (o : Op)
    (hemp : questionsFor bank s = []) (hfin : s.finished = false) :
    (step bank s o).finished = false := by
  have hvis := questionVisible_eq_false_of_empty bank s hemp
  cases o with
  | selectQuiz q =>
    simp only [step, selectQuizOp]
    split
    · exact hfin
    · rfl
  | selectChoice k => simp [step, selectOp, hvis, hfin]
  | submit => simp [step, submitOp, hvis, hfin]
  | advance => simp [step, advanceOp, hvis, hfin]
  | replay => simp [step, replayOp, hfin]
  | leave => simp [step, exitOp, hfin]

/-- Along any run whose states all have an empty question list, a session
that starts unfinished stays unfinished. -/
theorem emptyAlong_keeps_unfinished (bank : QuizBank) :
    ∀ (ops : List Op) (s : Session), s.finished = false →
      emptyAlong bank s ops = true → (runOps bank s ops).finished = false := by
  intro ops
  induction ops with
  | nil =>
    intro s hfin _
    exact hfin
  | cons o ops ih =>
    intro s hfin hall
    simp only [emptyAlong, Bool.and_eq_true, List.isEmpty_iff] at hall
    exact ih (step bank s o) (step_keeps_unfinished bank s o hall.1 hfin) hall.2

/-- C5: on a session whose derived question list is empty (for instance
after selecting a quiz id absent from the bank), submit and advance are
no-ops, and along any event sequence all of whose states keep the list
empty, finished never becomes true. -/
theorem empty_quiz_noops (bank : QuizBank) (s : Session)
    (hemp : questionsFor bank s = []) :
    submitOp bank s = s
  ∧ advanceOp bank s = s
  ∧ (∀ ops : List Op, s.finished = false → emptyAlong bank s ops = true →
      (runOps bank s ops).finished = false) := by
  have hvis := questionVisible_eq_false_of_empty bank s hemp
  exact ⟨by simp [submitOp, hvis], by simp [advanceOp, hvis],
    fun ops hfin hall => emptyAlong_keeps_unfinished bank ops s hfin hall⟩

/-- Witness for C5: quizX is absent from the bank, so its session has an
empty list; submit is a no-op and a run of select, submit and advance
events leaves finished false. -/
theorem empty_quiz_noops_witness :
    questionsFor bankW ⟨some "quizX", 0, none, false, false⟩ = []
  ∧ submitOp bankW ⟨some "quizX", 0, none, false, false⟩ =
      ⟨some "quizX", 0, none, false, false⟩
  ∧ (runOps bankW ⟨some "quizX", 0, none, false, false⟩
      [Op.selectChoice "A", Op.submit, Op.advance, Op.advance]).finished = false :=
  ⟨by decide,
   (empty_quiz_noops bankW ⟨some "quizX", 0, none, false, false⟩ (by decide)).1,
   (empty_quiz_noops bankW ⟨some "quizX", 0, none, false, false⟩ (by decide)).2.2
     [Op.selectChoice "A", Op.submit, Op.advance, Op.advance] rfl (by decide)⟩

/-- C6: the selectChoice event is live exactly while the session is
unfinished and the position addresses a question of a nonempty list;
when live it records the choice and forces submitted back to false (with
no condition on whether a submission had already occurred), and
otherwise it leaves the session unchanged. -/
theorem selectChoice_spec (bank : QuizBank) (s : Session) (key : String) :
    (questionVisible bank s = true ↔
      s.finished = false ∧ s.questionIndex < (questionsFor bank s).length)
  ∧ (questionVisible bank s = true →
      selectOp bank s key = { s with selectedChoice := some key, submitted := false })
  ∧ (questionVisible bank s = false → selectOp bank s key = s) := by
  refine ⟨questionVisible_iff bank s, ?_, ?_⟩
  · intro h
    simp [selectOp, h, handleSelect]
  · intro h
    simp [selectOp, h]

/-- Witness for C6 at a concrete session: the question block is visible
even though the answer was already submitted, and picking B re-opens it. -/
theorem selectChoice_spec_witness :
    questionVisible bankW ⟨some "quiz1", 0, some "A", false, true⟩ = true
  ∧ selectOp bankW ⟨some "quiz1", 0, some "A", false, true⟩ "B" =
      ⟨some "quiz1", 0, some "B", false, false⟩ :=
  ⟨by decide,
   (selectChoice_spec bankW ⟨some "quiz1", 0, some "A", false, true⟩ "B").2.1 (by decide)⟩

/-- C7 counterexample: a session showing a question whose choice map has
the empty-string key, with that key selected; selectedChoice is set, yet
both the raw handleSubmit and the gated submit event leave submitted
false, because the empty string is falsy in the handler guard and in
readyToSubmit. -/
theorem submit_set_counterexample :
    (⟨some "quizE", 0, some "", false, false⟩ : Session).selectedChoice = some ""
  ∧ questionVisible bankE ⟨some "quizE", 0, some "", false, false⟩ = true
  ∧ handleSubmit ⟨some "quizE", 0, some "", false, false⟩ =
      ⟨some "quizE", 0, some "", false, false⟩
  ∧ submitOp bankE ⟨some "quizE", 0, some "", false, false⟩ =
      ⟨some "quizE", 0, some "", false, false⟩
  ∧ (submitOp bankE ⟨some "quizE", 0, some "", false, false⟩).submitted = false := by
  decide

/-- C7 (amended): submit sets submitted to true when selectedChoice is
set to a non-empty key; when selectedChoice is absent or the empty-string
key, submit is a no-op that leaves the session, and in particular an
unsubmitted flag, unchanged. -/
theorem submit_spec (s : Session) :
    (∀ k, s.selectedChoice = some k → k ≠ "" →
      handleSubmit s = { s with submitted := true })
  ∧ (s.selectedChoice = none ∨ s.selectedChoice = some "" →
      handleSubmit s = s
      ∧ (s.submitted = false → (handleSubmit s).submitted = false)) := by
  constructor
  · intro k hk hne
    have ht : optTruthy s.selectedChoice = true := by
      simp [hk, optTruthy, strTruthy, hne]
    simp [handleSubmit, ht]
  · intro h
    have ht : optTruthy s.selectedChoice = false := by
      rcases h with h | h <;> simp [h, optTruthy, strTruthy]
    refine ⟨by simp [handleSubmit, ht], ?_⟩
    intro hf
    simp [handleSubmit, ht, hf]

/-- Witness for C7 at a concrete session with the non-empty key B picked. -/
theorem submit_spec_witness :
    (⟨some "quiz1", 0, some "B", false, false⟩ : Session).selectedChoice = some "B"
  ∧ ("B" : String) ≠ ""
  ∧ handleSubmit ⟨some "quiz1", 0, some "B", false, false⟩ =
      ⟨some "quiz1", 0, some "B", false, true⟩ :=
  ⟨rfl, by decide,
   (submit_spec ⟨some "quiz1", 0, some "B", false, false⟩).1 "B" rfl (by decide)⟩

/-- C8: running quiz1 to completion reaches the finished state with
submitted still true, and the replay button resets the position, the
selection and the finished flag while preserving the quiz id and its
question list, but it does NOT reset submitted: the state after replay
has submitted true, so it is the Submitted sub-state, not InProgress
(the Next button is immediately rendered with no selection made). -/
theorem replay_keeps_submitted :
    runOps bankW ⟨some "quiz1", 0, none, false, false⟩
      [Op.selectChoice "B", Op.submit, Op.advance,
       Op.selectChoice "B", Op.submit, Op.advance] =
      ⟨some "quiz1", 1, some "B", true, true⟩
  ∧ replayOp ⟨some "quiz1", 1, some "B", true, true⟩ =
      ⟨some "quiz1", 0, none, false, true⟩
  ∧ (replayOp ⟨some "quiz1", 1, some "B", true, true⟩).submitted = true
  ∧ (replayOp ⟨some "quiz1", 1, some "B", true, true⟩).activeQuizId = some "quiz1"
  ∧ questionsFor bankW (replayOp ⟨some "quiz1", 1, some "B", true, true⟩) =
      questionsFor bankW ⟨some "quiz1", 1, some "B", true, true⟩ := by
  decide

/-- C9 counterexample: a submitted session whose selected choice is the
empty-string key and whose current question has the empty string as its
correct answer; the selection equals the correct answer and submitted is
true, yet isCorrect is false, because the empty string is falsy in the
guard of the conditional. -/
theorem isCorrect_counterexample :
    (⟨some "quizZ", 0, some "", false, true⟩ : Session).submitted = true
  ∧ currentQuestion bankZ ⟨some "quizZ", 0, some "", false, true⟩ = some (enrich "edge" qZ)
  ∧ (⟨some "quizZ", 0, some "", false, true⟩ : Session).selectedChoice
      = some (enrich "edge" qZ).correct_answer
  ∧ isCorrect bankZ ⟨some "quizZ", 0, some "", false, true⟩ = false := by
  decide

/-- C9 (amended): isCorrect is true exactly when submitted is true, a
current question exists, and the selected choice is a non-empty key equal
to that question's correct answer; in every other case it is false. -/
theorem isCorrect_spec (bank : QuizBank) (s : Session) :
    isCorrect bank s = true ↔
      s.submitted = true ∧
      ∃ k q, s.selectedChoice = some k ∧ k ≠ "" ∧
        currentQuestion bank s = some q ∧ k = q.correct_answer := by
  unfold isCorrect
  cases hc : currentQuestion bank s with
  | none => simp
  | some q =>
    cases hs : s.selectedChoice with
    | none => simp
    | some c =>
      simp only [Bool.and_eq_true, beq_iff_eq, Option.some.injEq, strTruthy, bne_iff_ne]
      constructor
      · rintro ⟨⟨hsub, hne⟩, heq⟩
        exact ⟨hsub, c, q, rfl, hne, rfl, heq⟩
      · rintro ⟨hsub, k, q2, hk, hne, hq2, heq⟩
        subst hk
        cases hq2
        exact ⟨⟨hsub, hne⟩, heq⟩

/-- Witness for C9 at a concrete graded session: A submitted on question
number 1 of quiz1 is correct. -/
theorem isCorrect_spec_witness :
    isCorrect bankW ⟨some "quiz1", 0, some "A", false, true⟩ = true :=
  (isCorrect_spec bankW ⟨some "quiz1", 0, some "A", false, true⟩).mpr
    ⟨rfl, "A", enrich "basics" q1, rfl, by decide, by decide, by decide⟩

/-- C10: on any session showing a current question whose choice map
contains the empty-string key, selecting that key and then submitting
leaves submitted false, and the resulting state grades as not correct,
so the empty-string choice can never be submitted or graded. -/
theorem empty_key_not_submittable (bank : QuizBank) (s : Session)
    (hvis : questionVisible bank s = true)
    (q : EnrichedQuestion) (_hq : currentQuestion bank s = some q)
    (_hkey : "" ∈ q.choices.map Prod.fst) :
    (submitOp bank (selectOp bank s "")).submitted = false
  ∧ isCorrect bank (submitOp bank (selectOp bank s "")) = false := by
  have h1 : selectOp bank s "" = { s with selectedChoice := some "", submitted := false } := by
    simp [selectOp, hvis, handleSelect]
  have h2 : submitOp bank (selectOp bank s "") = selectOp bank s "" := by
    rw [h1]
    simp [submitOp, readyToSubmit, optTruthy, strTruthy]
  rw [h2, h1]
  refine ⟨rfl, ?_⟩
  unfold isCorrect
  cases hcq : currentQuestion bank
      { s with selectedChoice := some "", submitted := false } with
  | none => rfl
  | some q2 => simp [strTruthy]

/-- Witness for C10 at the concrete bank whose quizE question offers the
empty-string key among its choices. -/
theorem empty_key_not_submittable_witness :
    questionVisible bankE ⟨some "quizE", 0, none, false, false⟩ = true
  ∧ currentQuestion bankE ⟨some "quizE", 0, none, false, false⟩ = some (enrich "edge" qE)
  ∧ "" ∈ (enrich "edge" qE).choices.map Prod.fst
  ∧ (submitOp bankE (selectOp bankE ⟨some "quizE", 0, none, false, false⟩ "")).submitted = false :=
  ⟨by decide, by decide, by decide,
   (empty_key_not_submittable bankE ⟨some "quizE", 0, none, false, false⟩ (by decide)
     (enrich "edge" qE) (by decide) (by decide)).1⟩

end FinalStudy
